import Mathlib

/-! go-sip-ua: the INVITE session (`pkg/invite/session.go`)

A shallow embedding of `invite.Session` and of its operations, followed by the
properties of the session that the specification states.

* Go values of type `Status` and `Direction` are strings, so both are `String` here and
  the named states are string constants.
* A `*sdp.Session`, a `sip.Response` and a `sip.Transaction` may be nil; they are
  `Option`s, resp. the `Transaction.nil` constructor.  The stored `request` and the
  `contact` are dereferenced unconditionally by the operations and are modelled as
  present values.
* An operation has effects besides its result: it may change the session, call
  `Respond` on the transaction, write to the logger, and it may panic (the unchecked
  type assertion `s.transaction.(sip.ServerTransaction)`).  An operation of the model
  returns a `Run`, which records all of them.
* The messages, headers and `sip.NewResponseFromRequest` belong to the gosip library.
  They are modelled here after the interface of that library: a message carries its
  headers in the order in which `AppendHeader` added them and `GetHeaders` selects by
  lower-cased name.
-/

namespace Invite

/-! ## The gosip collaborator: headers and messages -/

/-- Lower-cased form of a header name (Go `strings.ToLower` on an ASCII name); gosip
indexes the headers of a message by it. -/
def toLower (s : String) : String := String.mk (s.data.map Char.toLower)

/-- A `sip.Address`: display name, URI and parameters. -/
structure Address where
  displayName : Option String
  uri : String
  params : List (String × String)
deriving DecidableEq, Repr

/-- The headers the session code builds or looks at: `sip.ContentType`,
`sip.ContentLength`, `sip.ContactHeader`, and `sip.GenericHeader` for any other header
that a request carries. -/
inductive Header where
  | ContentType (value : String)
  | ContentLength (length : Nat)
  | ContactHeader (displayName : Option String) (address : String)
      (params : List (String × String))
  | GenericHeader (headerName : String) (contents : String)
deriving DecidableEq, Repr

/-- The `Name()` of a header. -/
def Header.Name : Header → String
  | .ContentType _ => "Content-Type"
  | .ContentLength _ => "Content-Length"
  | .ContactHeader _ _ _ => "Contact"
  | .GenericHeader n _ => n

/-- The `Clone()` of a header: an equal header. -/
def Header.Clone (h : Header) : Header := h

/-- The method `(*sip.Address).AsContactHeader`. -/
def Address.AsContactHeader (addr : Address) : Header :=
  .ContactHeader addr.displayName addr.uri addr.params

/-- The headers called `name` in a list of headers, in their order. -/
def headersNamed (name : String) (hs : List Header) : List Header :=
  hs.filter (fun h => decide (toLower h.Name = toLower name))

/-- The effect of `ReplaceHeaders(name, new)` on a list of headers: when a header called
`name` is present, the headers of that name are replaced by `new`, at the place of the
first of them; otherwise nothing changes. -/
def replaceNamed (name : String) (new : List Header) : List Header → List Header
  | [] => []
  | h :: t =>
    if toLower h.Name = toLower name then
      new ++ t.filter (fun k => decide (toLower k.Name ≠ toLower name))
    else h :: replaceNamed name new t

/-- A `sip.Request`, as far as the session reads it. -/
structure Request where
  messageID : String
  method : String
  recipient : String
  sipVersion : String
  headers : List Header
  body : String
  transport : String
  source : String
  destination : String
deriving DecidableEq, Repr

/-- A `sip.Response`. -/
structure Response where
  messageID : String
  sipVersion : String
  statusCode : Nat
  reason : String
  headers : List Header
  body : String
  transport : String
  source : String
  destination : String
deriving DecidableEq, Repr

/-- The method `request.GetHeaders(name)`. -/
def Request.GetHeaders (req : Request) (name : String) : List Header :=
  headersNamed name req.headers

/-- The method `response.GetHeaders(name)`. -/
def Response.GetHeaders (res : Response) (name : String) : List Header :=
  headersNamed name res.headers

/-- The method `response.AppendHeader(header)`. -/
def Response.AppendHeader (res : Response) (h : Header) : Response :=
  { res with headers := res.headers ++ [h] }

/-- The method `response.ReplaceHeaders(name, headers)`. -/
def Response.ReplaceHeaders (res : Response) (name : String) (new : List Header) :
    Response :=
  { res with headers := replaceNamed name new res.headers }

/-- The function `sip.CopyHeaders(name, from, to)`: every header called `name` of the
request is cloned and appended to the response. -/
def CopyHeaders (name : String) (src : Request) (dst : Response) : Response :=
  (src.GetHeaders name).foldl (fun res h => res.AppendHeader h.Clone) dst

/-- The method `response.SetBody(body, setContentLength)`: stores the body and, when
asked to, sets the `Content-Length` header to its length in bytes. -/
def Response.SetBody (res : Response) (body : String) (setContentLength : Bool) :
    Response :=
  let res := { res with body := body }
  if setContentLength then
    if (res.GetHeaders "Content-Length").length = 0 then
      res.AppendHeader (.ContentLength body.utf8ByteSize)
    else
      res.ReplaceHeaders "Content-Length" [.ContentLength body.utf8ByteSize]
  else res

/-- The function `sip.NewResponseFromRequest(resID, req, statusCode, reason, body)`: a
response with the given status line, the routing headers of the request (and its
`Timestamp` for a 100), the transport data of the request mirrored, and the body. -/
def NewResponseFromRequest (resID : String) (req : Request) (statusCode : Nat)
    (reason : String) (body : String) : Response :=
  let res : Response :=
    { messageID := resID, sipVersion := req.sipVersion, statusCode := statusCode,
      reason := reason, headers := [], body := "",
      transport := "", source := "", destination := "" }
  let res := CopyHeaders "Record-Route" req res
  let res := CopyHeaders "Via" req res
  let res := CopyHeaders "From" req res
  let res := CopyHeaders "To" req res
  let res := CopyHeaders "Call-ID" req res
  let res := CopyHeaders "CSeq" req res
  let res := if statusCode = 100 then CopyHeaders "Timestamp" req res else res
  let res := res.SetBody "" true
  let res :=
    { res with transport := req.transport, source := req.destination,
               destination := req.source }
  if body.utf8ByteSize > 0 then res.SetBody body true else res

/-- A `*sdp.Session` that is not nil.  The SDP library is a collaborator; a description is
represented by the text that its `String()` method yields. -/
structure SdpSession where
  text : String
deriving DecidableEq, Repr

/-- The method `(*sdp.Session).String`: the serialization of the description. -/
def SdpSession.String (d : SdpSession) : String := d.text

/-- A value of the interface `sip.Transaction`: nil, a client transaction or a server
transaction.  Only a server transaction has `Respond`, so only for it does the type
assertion `.(sip.ServerTransaction)` succeed. -/
inductive Transaction where
  | nil
  | client (key : String)
  | server (key : String)
deriving DecidableEq, Repr

/-! ## `session.go` -/

/-- The type `Status`: a string. -/
abbrev Status := String

abbrev Null : Status := "Null"
abbrev InviteSent : Status := "InviteSent"
abbrev InviteReceived : Status := "InviteReceived"
abbrev Provisional : Status := "Provisional"
abbrev EarlyMedia : Status := "EarlyMedia"
abbrev WaitingForAnswer : Status := "WaitingForAnswer"
abbrev WaitingForACK : Status := "WaitingForACK"
abbrev Answered : Status := "Answered"
abbrev Canceled : Status := "Canceled"
abbrev Confirmed : Status := "Confirmed"
abbrev Failure : Status := "Failure"
abbrev Terminated : Status := "Terminated"

/-- The type `Direction`: a string. -/
abbrev Direction := String

abbrev Outgoing : Direction := "Outgoing"
abbrev Incoming : Direction := "Incoming"

/-- The struct `Session`. -/
structure Session where
  contact : Address
  status : Status
  id : String
  offer : Option SdpSession
  answer : Option SdpSession
  request : Request
  response : Option Response
  transaction : Transaction
  direction : Direction
deriving DecidableEq, Repr

/-- A line written to the package logger: its level and the message (for `Infof` and
`Errorf` the format string as written in the source). -/
structure LogEntry where
  level : String
  message : String
deriving DecidableEq, Repr

/-- How a call ended: it returned a value, or it panicked. -/
inductive Exit (α : Type) where
  | returned (value : α)
  | panicked
deriving DecidableEq, Repr

/-- Everything a call of a session operation did: the session afterwards, the responses
handed to `Respond` of the transaction (in order), the lines logged (in order), and how
the call ended. -/
structure Run (α : Type) where
  session : Session
  responded : List Response
  logged : List LogEntry
  exit : Exit α

/-- `NewInviteSession`: the fields named in the composite literal are set, every other
field keeps the zero value of its type (the empty string for `status`, nil for `offer`,
`answer` and `response`). -/
def NewInviteSession (contact : Address) (req : Request) (cid : String)
    (tx : Transaction) (dir : Direction) : Session :=
  { contact := contact, status := "", id := cid, offer := none, answer := none,
    request := req, response := none, transaction := tx, direction := dir }

/-- `isInProgress`. -/
def Session.isInProgress (s : Session) : Bool :=
  if s.status = Null then true
  else if s.status = InviteSent then true
  else if s.status = Provisional then true
  else if s.status = InviteReceived then true
  else if s.status = WaitingForAnswer then true
  else false

/-- `isEstablished`. -/
def Session.isEstablished (s : Session) : Bool :=
  if s.status = Answered then true
  else if s.status = WaitingForACK then true
  else if s.status = Confirmed then true
  else false

/-- `isEnded`. -/
def Session.isEnded (s : Session) : Bool :=
  if s.status = Canceled then true
  else if s.status = Terminated then true
  else false

/-- `StoreRequest`. -/
def Session.StoreRequest (s : Session) (request : Request) : Session :=
  { s with request := request }

/-- `StoreResponse`. -/
def Session.StoreResponse (s : Session) (response : Option Response) : Session :=
  { s with response := response }

/-- `StoreTransaction`. -/
def Session.StoreTransaction (s : Session) (tx : Transaction) : Session :=
  { s with transaction := tx }

/-- `SetState`. -/
def Session.SetState (s : Session) (status : Status) : Session :=
  { s with status := status }

/-- `Status()`. -/
def Session.Status (s : Session) : Status := s.status

/-- `Direction()`. -/
def Session.Direction (s : Session) : Direction := s.direction

/-- `GetEarlyMedia`. -/
def Session.GetEarlyMedia (s : Session) : Option SdpSession := s.answer

/-- `ProvideOffer`. -/
def Session.ProvideOffer (s : Session) (sdp : Option SdpSession) : Session :=
  { s with offer := sdp }

/-- `ProvideAnswer`. -/
def Session.ProvideAnswer (s : Session) (sdp : Option SdpSession) : Session :=
  { s with answer := sdp }

/-- `Info`: an empty body. -/
def Session.Info (s : Session) (_content : String) : Run Unit :=
  { session := s, responded := [], logged := [], exit := .returned () }

/-- `Reject`. -/
def Session.Reject (s : Session) (statusCode : Nat) (reason : String) : Run Unit :=
  match s.transaction with
  | .server _ =>
    let request := s.request
    let response := NewResponseFromRequest request.messageID request statusCode reason ""
    { session := s, responded := [response],
      logged := [⟨"info", "Reject: Request => %s, body => %s"⟩],
      exit := .returned () }
  | _ => { session := s, responded := [], logged := [], exit := .panicked }

/-- `End`.  The returned `error` is `none` for nil and `some` of the message of the
error otherwise. -/
def Session.End (s : Session) (_statusCode : Nat) (_reason : String) :
    Run (Option String) :=
  if s.status = Terminated then
    { session := s, responded := [], logged := [],
      exit := .returned (some ("Invalid status: " ++ s.status)) }
  else
    let logged : List LogEntry :=
      if s.status = Null ∨ s.status = InviteSent ∨ s.status = Provisional
          ∨ s.status = EarlyMedia then
        [⟨"info", "Canceling session."⟩]
      else if s.status = WaitingForAnswer ∨ s.status = Answered then
        [⟨"info", "Rejecting session"⟩]
      else if s.status = WaitingForACK ∨ s.status = Confirmed then
        [⟨"info", "Terminating session."⟩]
      else []
    { session := s, responded := [], logged := logged, exit := .returned none }

/-- `Accept`. -/
def Session.Accept (s : Session) (_statusCode : Nat) : Run Unit :=
  match s.transaction with
  | .server _ =>
    match s.answer with
    | none =>
      { session := s, responded := [], logged := [⟨"error", "Answer sdp is nil!"⟩],
        exit := .returned () }
    | some answer =>
      let request := s.request
      let response :=
        NewResponseFromRequest request.messageID request 200 "OK" answer.String
      let hdrs := request.GetHeaders "Content-Type"
      let response :=
        if hdrs.length = 0 then response.AppendHeader (.ContentType "application/sdp")
        else CopyHeaders "Content-Type" request response
      let response := response.AppendHeader s.contact.AsContactHeader
      { session := { s with response := some response }, responded := [response],
        logged := [], exit := .returned () }
  | _ => { session := s, responded := [], logged := [], exit := .panicked }

/-- `Redirect`: an empty body. -/
def Session.Redirect (s : Session) (_addr : Address) (_code : Nat) : Run Unit :=
  { session := s, responded := [], logged := [], exit := .returned () }

/-- `Provisional`. -/
def Session.Provisional (s : Session) (statusCode : Nat) (reason : String) : Run Unit :=
  match s.transaction with
  | .server _ =>
    let request := s.request
    let response :=
      match s.answer with
      | some answer =>
        let sdp := answer.String
        let response :=
          NewResponseFromRequest request.messageID request statusCode reason sdp
        let hdrs := response.GetHeaders "Content-Type"
        if hdrs.length = 0 then response.AppendHeader (.ContentType "application/sdp")
        else CopyHeaders "Content-Type" request response
      | none => NewResponseFromRequest request.messageID request statusCode reason ""
    { session := { s with response := some response }, responded := [response],
      logged := [], exit := .returned () }
  | _ => { session := s, responded := [], logged := [], exit := .panicked }

/-! ## Sample values -/

/-- An INVITE without a body. -/
def sampleRequest : Request :=
  { messageID := "m1", method := "INVITE", recipient := "sip:100@127.0.0.1",
    sipVersion := "SIP/2.0",
    headers := [.GenericHeader "Via" "SIP/2.0/UDP 127.0.0.1:5080",
                .GenericHeader "Call-ID" "c1", .GenericHeader "CSeq" "1 INVITE"],
    body := "", transport := "UDP", source := "127.0.0.1:5080",
    destination := "127.0.0.1:5060" }

/-- The local address of the sample session. -/
def sampleContact : Address :=
  { displayName := none, uri := "sip:100@127.0.0.1", params := [] }

/-- An SDP description. -/
def sampleSdp : SdpSession := ⟨"v=0\r\n"⟩

/-- An incoming session in the given status, with a server transaction and the given
answer. -/
def sampleSession (status : Status) (answer : Option SdpSession) : Session :=
  { contact := sampleContact, status := status, id := "c1", offer := none,
    answer := answer, request := sampleRequest, response := none,
    transaction := .server "tx1", direction := Incoming }

/-- An outgoing session in the given status, with a client transaction. -/
def sampleOutgoing (status : Status) : Session :=
  { contact := sampleContact, status := status, id := "c2", offer := some sampleSdp,
    answer := none, request := sampleRequest, response := none,
    transaction := .client "tx2", direction := Outgoing }

/-- An INVITE that declares a content type of its own. -/
def mixedRequest : Request :=
  { sampleRequest with
    headers := sampleRequest.headers ++ [.ContentType "multipart/mixed"],
    body := "--b1--" }

/-- An incoming session for `mixedRequest`, with an answer provided. -/
def mixedSession : Session :=
  { sampleSession InviteReceived (some sampleSdp) with request := mixedRequest }

/-! ## The transition table of the specification -/

/-- The twelve named states. -/
def namedStates : List Status :=
  [Null, InviteSent, InviteReceived, Provisional, EarlyMedia, WaitingForAnswer,
   WaitingForACK, Answered, Canceled, Confirmed, Failure, Terminated]

/-- The transition table of section 4.1 of the specification, row by row:
`specTransition a b` is true when the table has a row that leads from `a` to `b`.  The
row for `Terminated` has no target. -/
def specTransition (a b : Status) : Bool :=
  decide (
    (a = Null ∧ b = InviteSent)
    ∨ (a = Null ∧ b = InviteReceived)
    ∨ (a = InviteSent ∧ b = Provisional)
    ∨ ((a = InviteSent ∨ a = Provisional) ∧ b = EarlyMedia)
    ∨ (a = InviteReceived ∧ b = WaitingForAnswer)
    ∨ ((a = WaitingForAnswer ∨ a = InviteReceived) ∧ b = Answered)
    ∨ ((a = InviteSent ∨ a = Provisional ∨ a = EarlyMedia) ∧ b = WaitingForACK)
    ∨ (a = Answered ∧ b = Confirmed)
    ∨ (a = WaitingForACK ∧ b = Confirmed)
    ∨ ((a = Null ∨ a = InviteSent ∨ a = Provisional ∨ a = InviteReceived
          ∨ a = WaitingForAnswer) ∧ b = Canceled)
    ∨ ((a = WaitingForAnswer ∨ a = Answered) ∧ b = Failure)
    ∨ ((a = WaitingForACK ∨ a = Confirmed) ∧ b = Terminated))

/-! ## Lemmas on the message operations -/

theorem headersNamed_append (name : String) (a b : List Header) :
    headersNamed name (a ++ b) = headersNamed name a ++ headersNamed name b := by
  simp [headersNamed]

theorem headersNamed_headersNamed_of_ne (a b : String) (hab : toLower b ≠ toLower a)
    (hs : List Header) : headersNamed a (headersNamed b hs) = [] := by
  induction hs with
  | nil => rfl
  | cons h t ih =>
    unfold headersNamed at ih ⊢
    by_cases hb : toLower h.Name = toLower b
    · have ha : ¬ toLower h.Name = toLower a := fun e => hab (hb.symm.trans e)
      rw [List.filter_cons_of_pos (by simpa using hb),
        List.filter_cons_of_neg (by simpa using ha)]
      exact ih
    · rw [List.filter_cons_of_neg (by simpa using hb)]
      exact ih

theorem replaceNamed_append_single (name : String) (new : List Header) (h : Header)
    (hh : toLower h.Name = toLower name) (hs : List Header)
    (hnone : headersNamed name hs = []) :
    replaceNamed name new (hs ++ [h]) = hs ++ new := by
  induction hs with
  | nil => simp [replaceNamed, hh]
  | cons k t ih =>
    by_cases hk : toLower k.Name = toLower name
    · simp [headersNamed, List.filter_cons, hk] at hnone
    · have ht : headersNamed name t = [] := by
        simpa [headersNamed, List.filter_cons, hk] using hnone
      simp [replaceNamed, hk, ih ht]

theorem CopyHeaders_eq (name : String) (src : Request) (dst : Response) :
    CopyHeaders name src dst
      = { dst with headers := dst.headers ++ src.GetHeaders name } := by
  unfold CopyHeaders
  generalize src.GetHeaders name = l
  induction l generalizing dst with
  | nil => simp
  | cons h t ih =>
    rw [List.foldl_cons, ih]
    simp [Response.AppendHeader, Header.Clone]

theorem utf8ByteSize_go_pos (c : Char) (cs : List Char) :
    0 < String.utf8ByteSize.go (c :: cs) := by
  have := Char.utf8Size_pos c
  simp only [String.utf8ByteSize.go]
  omega

theorem eq_empty_of_utf8ByteSize (body : String) (h : ¬ body.utf8ByteSize > 0) :
    body = "" := by
  cases body with
  | mk data =>
    cases data with
    | nil => rfl
    | cons c cs =>
      exact absurd (utf8ByteSize_go_pos c cs) (by simpa [String.utf8ByteSize] using h)

/-- The headers that `NewResponseFromRequest` copies from the request. -/
def routingHeaders (req : Request) (statusCode : Nat) : List Header :=
  req.GetHeaders "Record-Route" ++ req.GetHeaders "Via" ++ req.GetHeaders "From"
    ++ req.GetHeaders "To" ++ req.GetHeaders "Call-ID" ++ req.GetHeaders "CSeq"
    ++ (if statusCode = 100 then req.GetHeaders "Timestamp" else [])

theorem headersNamed_routingHeaders (name : String) (req : Request) (statusCode : Nat)
    (h1 : toLower "Record-Route" ≠ toLower name) (h2 : toLower "Via" ≠ toLower name)
    (h3 : toLower "From" ≠ toLower name) (h4 : toLower "To" ≠ toLower name)
    (h5 : toLower "Call-ID" ≠ toLower name) (h6 : toLower "CSeq" ≠ toLower name)
    (h7 : toLower "Timestamp" ≠ toLower name) :
    headersNamed name (routingHeaders req statusCode) = [] := by
  unfold routingHeaders Request.GetHeaders
  simp only [headersNamed_append, headersNamed_headersNamed_of_ne _ _ h1,
    headersNamed_headersNamed_of_ne _ _ h2, headersNamed_headersNamed_of_ne _ _ h3,
    headersNamed_headersNamed_of_ne _ _ h4, headersNamed_headersNamed_of_ne _ _ h5,
    headersNamed_headersNamed_of_ne _ _ h6, List.append_nil, List.nil_append]
  split
  · exact headersNamed_headersNamed_of_ne _ _ h7 _
  · rfl

theorem copied_eq (req : Request) (statusCode : Nat) (r : Response)
    (hr : r.headers = []) :
    (if statusCode = 100 then
        CopyHeaders "Timestamp" req (CopyHeaders "CSeq" req (CopyHeaders "Call-ID" req
          (CopyHeaders "To" req (CopyHeaders "From" req (CopyHeaders "Via" req
            (CopyHeaders "Record-Route" req r))))))
      else
        CopyHeaders "CSeq" req (CopyHeaders "Call-ID" req
          (CopyHeaders "To" req (CopyHeaders "From" req (CopyHeaders "Via" req
            (CopyHeaders "Record-Route" req r)))))
      ) = { r with headers := routingHeaders req statusCode } := by
  by_cases h100 : statusCode = 100
  · simp [h100, CopyHeaders_eq, routingHeaders, hr]
  · simp [h100, CopyHeaders_eq, routingHeaders, hr]

theorem setBody_after_copy (r : Response) (body tr src dst : String)
    (hcl : headersNamed "Content-Length" r.headers = []) :
    (if body.utf8ByteSize > 0 then
        Response.SetBody { r.SetBody "" true with
          transport := tr, source := src, destination := dst } body true
      else { r.SetBody "" true with transport := tr, source := src, destination := dst })
      = { r with headers := r.headers ++ [.ContentLength body.utf8ByteSize],
                 body := body, transport := tr, source := src, destination := dst } := by
  have h0 : r.SetBody "" true
      = { r with headers := r.headers ++ [.ContentLength "".utf8ByteSize], body := "" } := by
    simp [Response.SetBody, Response.GetHeaders, hcl, Response.AppendHeader]
  rw [h0]
  by_cases hb : body.utf8ByteSize > 0
  · rw [if_pos hb]
    have hne : ¬ (headersNamed "Content-Length"
        (r.headers ++ [Header.ContentLength "".utf8ByteSize])).length = 0 := by
      rw [headersNamed_append, hcl]
      decide
    simp only [Response.SetBody, Response.GetHeaders, if_true, hne, if_false,
      Response.ReplaceHeaders]
    rw [replaceNamed_append_single "Content-Length" _ (Header.ContentLength _) rfl _ hcl]
  · rw [if_neg hb]
    have hbe := eq_empty_of_utf8ByteSize body hb
    subst hbe
    rfl

/-- What `NewResponseFromRequest` returns, in closed form. -/
theorem NewResponseFromRequest_eq (resID : String) (req : Request) (statusCode : Nat)
    (reason body : String) :
    NewResponseFromRequest resID req statusCode reason body
      = { messageID := resID, sipVersion := req.sipVersion, statusCode := statusCode,
          reason := reason,
          headers := routingHeaders req statusCode ++ [.ContentLength body.utf8ByteSize],
          body := body, transport := req.transport, source := req.destination,
          destination := req.source } := by
  have hcl : headersNamed "Content-Length" (routingHeaders req statusCode) = [] :=
    headersNamed_routingHeaders _ req statusCode (by decide) (by decide) (by decide)
      (by decide) (by decide) (by decide) (by decide)
  unfold NewResponseFromRequest
  simp only []
  rw [copied_eq req statusCode _ rfl]
  exact setBody_after_copy _ body _ _ _ hcl

theorem headersNamed_idem (name : String) (hs : List Header) :
    headersNamed name (headersNamed name hs) = headersNamed name hs := by
  simp [headersNamed, List.filter_filter]

/-- A fresh response carries no `Content-Type` header. -/
theorem NewResponseFromRequest_no_content_type (resID : String) (req : Request)
    (statusCode : Nat) (reason body : String) :
    (NewResponseFromRequest resID req statusCode reason body).GetHeaders "Content-Type"
      = [] := by
  have hct : headersNamed "Content-Type" (routingHeaders req statusCode) = [] :=
    headersNamed_routingHeaders _ req statusCode (by decide) (by decide) (by decide)
      (by decide) (by decide) (by decide) (by decide)
  rw [NewResponseFromRequest_eq]
  simp only [Response.GetHeaders, headersNamed_append, hct, List.nil_append]
  rfl

/-! ## The session operations -/

/-- C1: `End` on a session whose status is `Terminated` returns the error
"Invalid status: Terminated", hands no message to the transaction and leaves every field
of the session as it was, whatever the status code and the reason. -/
theorem End_on_Terminated_is_refused (s : Session) (statusCode : Nat) (reason : String)
    (h : s.status = Terminated) :
    (s.End statusCode reason).exit = .returned (some "Invalid status: Terminated")
      ∧ (s.End statusCode reason).responded = []
      ∧ (s.End statusCode reason).session = s := by
  simp only [Session.End, h, if_true, and_self, and_true]
  rfl

theorem End_on_Terminated_is_refused_witness :
    (sampleSession Terminated none).status = Terminated
      ∧ ((sampleSession Terminated none).End 487 "Request Terminated").exit
          = .returned (some "Invalid status: Terminated")
      ∧ ((sampleSession Terminated none).End 487 "Request Terminated").responded = []
      ∧ ((sampleSession Terminated none).End 487 "Request Terminated").session
          = sampleSession Terminated none :=
  ⟨rfl, End_on_Terminated_is_refused (sampleSession Terminated none) 487
    "Request Terminated" rfl⟩

/-- C2: on a session with a server transaction and no answer, `Accept` returns without
calling `Respond` and leaves the session (status, response, offer, answer, request,
transaction and the rest) as it was, whatever the status code. -/
theorem Accept_without_answer_sends_nothing (s : Session) (key : String)
    (statusCode : Nat) (htx : s.transaction = .server key) (ha : s.answer = none) :
    (s.Accept statusCode).responded = []
      ∧ (s.Accept statusCode).session = s
      ∧ (s.Accept statusCode).exit = .returned () := by
  simp [Session.Accept, htx, ha]

theorem Accept_without_answer_sends_nothing_witness :
    (sampleSession InviteReceived none).transaction = .server "tx1"
      ∧ (sampleSession InviteReceived none).answer = none
      ∧ ((sampleSession InviteReceived none).Accept 200).responded = []
      ∧ ((sampleSession InviteReceived none).Accept 200).session
          = sampleSession InviteReceived none
      ∧ ((sampleSession InviteReceived none).Accept 200).exit = .returned () :=
  ⟨rfl, rfl, Accept_without_answer_sends_nothing (sampleSession InviteReceived none)
    "tx1" 200 rfl rfl⟩

/-- C3, as stated, fails: for the session `mixedSession` (server transaction, answer
provided) whose request carries `Content-Type: multipart/mixed`, `Accept(200)` sends one
response with the serialized answer as body, and the only `Content-Type` header of that
response is `multipart/mixed`, not `application/sdp`. -/
theorem Accept_content_type_not_always_sdp :
    mixedSession.transaction = .server "tx1"
      ∧ mixedSession.answer = some sampleSdp
      ∧ (mixedSession.Accept 200).responded.map
            (fun r => (r.body, r.GetHeaders "Content-Type"))
          = [(sampleSdp.String, [.ContentType "multipart/mixed"])]
      ∧ (mixedSession.Accept 200).responded.map (fun r => r.GetHeaders "Content-Type")
          ≠ [[.ContentType "application/sdp"]] := by
  decide

/-- C3, amended: on a session with a server transaction and an answer, `Accept` calls
`Respond` exactly once; the response has the serialization of the answer as its body;
when the stored request has no `Content-Type` header the response has exactly one, with
value `application/sdp`, and otherwise the `Content-Type` headers of the response are
those of the request (as many, with the same values). -/
theorem Accept_sends_answer (s : Session) (key : String) (a : SdpSession)
    (statusCode : Nat) (htx : s.transaction = .server key) (ha : s.answer = some a) :
    ∃ r, (s.Accept statusCode).responded = [r]
      ∧ (s.Accept statusCode).exit = .returned ()
      ∧ r.body = a.String
      ∧ (s.request.GetHeaders "Content-Type" = [] →
          r.GetHeaders "Content-Type" = [.ContentType "application/sdp"])
      ∧ (s.request.GetHeaders "Content-Type" ≠ [] →
          r.GetHeaders "Content-Type" = s.request.GetHeaders "Content-Type") := by
  have hnew := NewResponseFromRequest_no_content_type s.request.messageID s.request 200
    "OK" a.String
  have hbody : (NewResponseFromRequest s.request.messageID s.request 200 "OK"
      a.String).body = a.String := by
    rw [NewResponseFromRequest_eq]
  simp only [Response.GetHeaders] at hnew
  simp only [Session.Accept, htx, ha]
  refine ⟨_, rfl, trivial, ?_, ?_, ?_⟩
  · by_cases hreq : (s.request.GetHeaders "Content-Type").length = 0
    · simp only [hreq, if_true, Response.AppendHeader, hbody]
    · simp only [hreq, if_false, Response.AppendHeader, CopyHeaders_eq, hbody]
  · intro hreq
    simp only [hreq, List.length_nil, if_true, Response.AppendHeader,
      Response.GetHeaders, headersNamed_append, hnew, List.nil_append]
    rfl
  · intro hreq
    have hlen : ¬ (s.request.GetHeaders "Content-Type").length = 0 := by
      simpa using hreq
    simp only [hlen, if_false, Response.AppendHeader, CopyHeaders_eq,
      Response.GetHeaders, headersNamed_append, hnew, List.nil_append]
    simp only [Request.GetHeaders, headersNamed_idem]
    have hc : headersNamed "Content-Type" [s.contact.AsContactHeader] = [] := rfl
    rw [hc, List.append_nil]

theorem Accept_sends_answer_witness :
    mixedSession.transaction = .server "tx1"
      ∧ mixedSession.answer = some sampleSdp
      ∧ ∃ r, (mixedSession.Accept 200).responded = [r]
        ∧ (mixedSession.Accept 200).exit = .returned ()
        ∧ r.body = sampleSdp.String
        ∧ (mixedSession.request.GetHeaders "Content-Type" = [] →
            r.GetHeaders "Content-Type" = [.ContentType "application/sdp"])
        ∧ (mixedSession.request.GetHeaders "Content-Type" ≠ [] →
            r.GetHeaders "Content-Type" = mixedSession.request.GetHeaders "Content-Type") :=
  ⟨rfl, rfl, Accept_sends_answer mixedSession "tx1" sampleSdp 200 rfl rfl⟩

/-- `Accept` never writes the status, whichever way it ends. -/
theorem Accept_status (s : Session) (statusCode : Nat) :
    (s.Accept statusCode).session.status = s.status := by
  unfold Session.Accept
  cases s.transaction <;> cases s.answer <;> rfl

/-- C4, as stated, fails: the session `sampleSession InviteReceived (some sampleSdp)`
has status `InviteReceived`, an answer and a server transaction; `Accept(200)` returns,
and afterwards the status is still `InviteReceived`, not `Answered`, and `isEstablished`
is false. -/
theorem Accept_does_not_reach_Answered :
    (sampleSession InviteReceived (some sampleSdp)).status = InviteReceived
      ∧ (sampleSession InviteReceived (some sampleSdp)).answer = some sampleSdp
      ∧ (sampleSession InviteReceived (some sampleSdp)).transaction = .server "tx1"
      ∧ ((sampleSession InviteReceived (some sampleSdp)).Accept 200).exit = .returned ()
      ∧ ((sampleSession InviteReceived (some sampleSdp)).Accept 200).session.status
          = InviteReceived
      ∧ ((sampleSession InviteReceived (some sampleSdp)).Accept 200).session.status
          ≠ Answered
      ∧ ((sampleSession InviteReceived (some sampleSdp)).Accept 200).session.isEstablished
          = false := by
  decide

/-- C4, amended: for a session whose status is `InviteReceived` or `WaitingForAnswer`,
with an answer and a server transaction, `Accept` returns and leaves the status as it
was; so `isEstablished` is still false afterwards, and the status becomes `Answered` only
when the caller sets it with `SetState`. -/
theorem Accept_keeps_status (s : Session) (key : String) (a : SdpSession)
    (statusCode : Nat) (hst : s.status = InviteReceived ∨ s.status = WaitingForAnswer)
    (htx : s.transaction = .server key) (ha : s.answer = some a) :
    (s.Accept statusCode).exit = .returned ()
      ∧ (s.Accept statusCode).session.status = s.status
      ∧ (s.Accept statusCode).session.isEstablished = false
      ∧ ((s.Accept statusCode).session.SetState Answered).isEstablished = true := by
  refine ⟨?_, Accept_status s statusCode, ?_, rfl⟩
  · simp [Session.Accept, htx, ha]
  · unfold Session.isEstablished
    rw [Accept_status]
    rcases hst with h | h <;> rw [h] <;> decide

theorem Accept_keeps_status_witness :
    ((sampleSession WaitingForAnswer (some sampleSdp)).status = InviteReceived
        ∨ (sampleSession WaitingForAnswer (some sampleSdp)).status = WaitingForAnswer)
      ∧ ((sampleSession WaitingForAnswer (some sampleSdp)).Accept 200).exit = .returned ()
      ∧ ((sampleSession WaitingForAnswer (some sampleSdp)).Accept 200).session.status
          = (sampleSession WaitingForAnswer (some sampleSdp)).status
      ∧ ((sampleSession WaitingForAnswer (some sampleSdp)).Accept 200).session.isEstablished
          = false
      ∧ (((sampleSession WaitingForAnswer (some sampleSdp)).Accept 200).session.SetState
          Answered).isEstablished = true :=
  ⟨Or.inr rfl, Accept_keeps_status (sampleSession WaitingForAnswer (some sampleSdp)) "tx1"
    sampleSdp 200 (Or.inr rfl) rfl rfl⟩

/-- C5, as stated, fails: for the outgoing session `sampleOutgoing InviteSent`, `End`
returns no error and afterwards the status is still `InviteSent`, not `Canceled`. -/
theorem End_on_InviteSent_not_Canceled :
    (sampleOutgoing InviteSent).status = InviteSent
      ∧ ((sampleOutgoing InviteSent).End 487 "Request Terminated").exit = .returned none
      ∧ ((sampleOutgoing InviteSent).End 487 "Request Terminated").session.status
          = InviteSent
      ∧ ((sampleOutgoing InviteSent).End 487 "Request Terminated").session.status
          ≠ Canceled := by
  decide

/-- C5, amended: for a session whose status is `InviteSent`, `End` returns no error,
logs "Canceling session." and leaves the session as it was, so the status is still
`InviteSent` afterwards. -/
theorem End_on_InviteSent (s : Session) (statusCode : Nat) (reason : String)
    (h : s.status = InviteSent) :
    (s.End statusCode reason).exit = .returned none
      ∧ (s.End statusCode reason).logged = [⟨"info", "Canceling session."⟩]
      ∧ (s.End statusCode reason).session = s
      ∧ (s.End statusCode reason).session.status = InviteSent := by
  have hne : ¬ (InviteSent = Terminated) := by decide
  have hc : InviteSent = Null ∨ InviteSent = InviteSent ∨ InviteSent = Provisional
      ∨ InviteSent = EarlyMedia := Or.inr (Or.inl rfl)
  unfold Session.End
  rw [h, if_neg hne, if_pos hc]
  exact ⟨rfl, rfl, rfl, h⟩

theorem End_on_InviteSent_witness :
    (sampleOutgoing InviteSent).status = InviteSent
      ∧ ((sampleOutgoing InviteSent).End 487 "Request Terminated").exit = .returned none
      ∧ ((sampleOutgoing InviteSent).End 487 "Request Terminated").logged
          = [⟨"info", "Canceling session."⟩]
      ∧ ((sampleOutgoing InviteSent).End 487 "Request Terminated").session
          = sampleOutgoing InviteSent
      ∧ ((sampleOutgoing InviteSent).End 487 "Request Terminated").session.status
          = InviteSent :=
  ⟨rfl, End_on_InviteSent (sampleOutgoing InviteSent) 487 "Request Terminated" rfl⟩

/-- C6, as stated, fails: the session `sampleOutgoing Canceled` has reached the terminal
state `Canceled`, and `End` on it returns no error; it does nothing and says so to
nobody (no message, no log line, session as before). -/
theorem End_on_Canceled_returns_no_error :
    (sampleOutgoing Canceled).status = Canceled
      ∧ ((sampleOutgoing Canceled).End 487 "Request Terminated").exit = .returned none
      ∧ ((sampleOutgoing Canceled).End 487 "Request Terminated").responded = []
      ∧ ((sampleOutgoing Canceled).End 487 "Request Terminated").logged = []
      ∧ ((sampleOutgoing Canceled).End 487 "Request Terminated").session
          = sampleOutgoing Canceled := by
  decide

/-- C6, amended: of the terminal states, `End` refuses only `Terminated`.  For a session
whose status is `Terminated`, `Canceled` or `Failure`, `End` returns the error
"Invalid status: Terminated" when the status is `Terminated` and no error when it is
`Canceled` or `Failure`; in all three cases no message is sent and the session is left
as it was. -/
theorem End_on_terminal_state (s : Session) (statusCode : Nat) (reason : String)
    (h : s.status = Terminated ∨ s.status = Canceled ∨ s.status = Failure) :
    (s.End statusCode reason).exit
        = .returned (if s.status = Terminated then some "Invalid status: Terminated"
                     else none)
      ∧ (s.End statusCode reason).responded = []
      ∧ (s.End statusCode reason).session = s := by
  rcases h with h | h | h
  · simp only [Session.End, h, if_true, and_self, and_true]
    rfl
  · have hne : ¬ (Canceled = Terminated) := by decide
    simp only [Session.End, h, hne, if_false, and_self]
  · have hne : ¬ (Failure = Terminated) := by decide
    simp only [Session.End, h, hne, if_false, and_self]

theorem End_on_terminal_state_witness :
    ((sampleSession Failure none).status = Terminated
        ∨ (sampleSession Failure none).status = Canceled
        ∨ (sampleSession Failure none).status = Failure)
      ∧ ((sampleSession Failure none).End 486 "Busy Here").exit
          = .returned (if (sampleSession Failure none).status = Terminated
                       then some "Invalid status: Terminated" else none)
      ∧ ((sampleSession Failure none).End 486 "Busy Here").responded = []
      ∧ ((sampleSession Failure none).End 486 "Busy Here").session
          = sampleSession Failure none :=
  ⟨Or.inr (Or.inr rfl), End_on_terminal_state (sampleSession Failure none) 486
    "Busy Here" (Or.inr (Or.inr rfl))⟩

/-- C7, as stated, fails: the table has no row from `Terminated` to `Null`, yet after
`SetState(Null)` on the session `sampleSession Terminated none` the method `Status()`
returns `Null`, not `Terminated`. -/
theorem SetState_leaves_the_table :
    (sampleSession Terminated none).Status = Terminated
      ∧ specTransition Terminated Null = false
      ∧ ((sampleSession Terminated none).SetState Null).Status = Null
      ∧ ((sampleSession Terminated none).SetState Null).Status
          ≠ (sampleSession Terminated none).Status := by
  decide

/-- C7, amended: `SetState(b)` applies every requested change, whether or not the
table has a row from the current status to `b`: afterwards `Status()` returns `b`, and
no other field of the session has changed. -/
theorem SetState_always_applies (s : Session) (b : Status) :
    (s.SetState b).Status = b
      ∧ s.SetState b = { s with status := b }
      ∧ ((s.SetState b).SetState s.Status) = s := by
  exact ⟨rfl, rfl, rfl⟩

/-- C8 does not hold of the code: `NewInviteSession` does not set `status`, so the
session it returns has the zero value of the string type `Status`, the empty string.
That is not `Null` (the string "Null"), it is none of the twelve named states, and
`isInProgress` is false for it. -/
theorem NewInviteSession_status (contact : Address) (req : Request) (cid : String)
    (tx : Transaction) (dir : Direction) :
    (NewInviteSession contact req cid tx dir).Status = ""
      ∧ (NewInviteSession contact req cid tx dir).Status ≠ Null
      ∧ (NewInviteSession contact req cid tx dir).Status ∉ namedStates
      ∧ (NewInviteSession contact req cid tx dir).isInProgress = false := by
  refine ⟨rfl, ?_, ?_, ?_⟩
  · show ("" : String) ≠ Null
    decide
  · show ("" : String) ∉ namedStates
    decide
  · rfl

/-- C9: on a session with a server transaction, `Reject(code, reason)` calls `Respond`
exactly once, with the response built by `NewResponseFromRequest` from the stored
request; that response has the given status code and reason and an empty body; the
call returns and leaves the session, its status included, as it was. -/
theorem Reject_sends_failure_response (s : Session) (key : String) (statusCode : Nat)
    (reason : String) (htx : s.transaction = .server key) :
    ∃ r, (s.Reject statusCode reason).responded = [r]
      ∧ r = NewResponseFromRequest s.request.messageID s.request statusCode reason ""
      ∧ r.statusCode = statusCode
      ∧ r.reason = reason
      ∧ r.body = ""
      ∧ (s.Reject statusCode reason).exit = .returned ()
      ∧ (s.Reject statusCode reason).session = s
      ∧ (s.Reject statusCode reason).session.status = s.status := by
  refine ⟨NewResponseFromRequest s.request.messageID s.request statusCode reason "",
    ?_, rfl, ?_, ?_, ?_, ?_, ?_, ?_⟩
  · simp only [Session.Reject, htx]
  · rw [NewResponseFromRequest_eq]
  · rw [NewResponseFromRequest_eq]
  · rw [NewResponseFromRequest_eq]
  · simp only [Session.Reject, htx]
  · simp only [Session.Reject, htx]
  · simp only [Session.Reject, htx]

theorem Reject_sends_failure_response_witness :
    (sampleSession WaitingForAnswer none).transaction = .server "tx1"
      ∧ ∃ r, ((sampleSession WaitingForAnswer none).Reject 486 "Busy Here").responded = [r]
        ∧ r = NewResponseFromRequest (sampleSession WaitingForAnswer none).request.messageID
              (sampleSession WaitingForAnswer none).request 486 "Busy Here" ""
        ∧ r.statusCode = 486
        ∧ r.reason = "Busy Here"
        ∧ r.body = ""
        ∧ ((sampleSession WaitingForAnswer none).Reject 486 "Busy Here").exit
            = .returned ()
        ∧ ((sampleSession WaitingForAnswer none).Reject 486 "Busy Here").session
            = sampleSession WaitingForAnswer none
        ∧ ((sampleSession WaitingForAnswer none).Reject 486 "Busy Here").session.status
            = (sampleSession WaitingForAnswer none).status :=
  ⟨rfl, Reject_sends_failure_response (sampleSession WaitingForAnswer none) "tx1" 486
    "Busy Here" rfl⟩

/-- C10: on a session with a server transaction, `Provisional(code, reason)` calls
`Respond` exactly once, with a response that has the given status code and reason, and
stores that response in the session.  When an answer is present the body of the response
is the serialization of the answer and the response carries a `Content-Type` header
(`application/sdp`); when there is none the body is empty.  In both cases the call
returns and the status is as before. -/
theorem Provisional_sends_response (s : Session) (key : String) (statusCode : Nat)
    (reason : String) (htx : s.transaction = .server key) :
    ∃ r, (s.Provisional statusCode reason).responded = [r]
      ∧ (s.Provisional statusCode reason).session.response = some r
      ∧ r.statusCode = statusCode
      ∧ r.reason = reason
      ∧ (∀ a, s.answer = some a →
          r.body = a.String ∧ r.GetHeaders "Content-Type" ≠ []
            ∧ r.GetHeaders "Content-Type" = [.ContentType "application/sdp"])
      ∧ (s.answer = none → r.body = "")
      ∧ (s.Provisional statusCode reason).exit = .returned ()
      ∧ (s.Provisional statusCode reason).session.status = s.status := by
  cases ha : s.answer with
  | none =>
    refine ⟨NewResponseFromRequest s.request.messageID s.request statusCode reason "",
      ?_, ?_, ?_, ?_, ?_, ?_, ?_, ?_⟩
    · simp only [Session.Provisional, htx, ha]
    · simp only [Session.Provisional, htx, ha]
    · rw [NewResponseFromRequest_eq]
    · rw [NewResponseFromRequest_eq]
    · intro a h
      cases h
    · intro _
      rw [NewResponseFromRequest_eq]
    · simp only [Session.Provisional, htx, ha]
    · simp only [Session.Provisional, htx, ha]
  | some a =>
    have hnew := NewResponseFromRequest_no_content_type s.request.messageID s.request
      statusCode reason a.String
    have hlen : ((NewResponseFromRequest s.request.messageID s.request statusCode reason
        a.String).GetHeaders "Content-Type").length = 0 := by
      rw [hnew]
      rfl
    have hct : headersNamed "Content-Type"
        ((NewResponseFromRequest s.request.messageID s.request statusCode reason
          a.String).headers ++ [Header.ContentType "application/sdp"])
        = [Header.ContentType "application/sdp"] := by
      rw [headersNamed_append]
      simp only [Response.GetHeaders] at hnew
      rw [hnew]
      rfl
    refine ⟨(NewResponseFromRequest s.request.messageID s.request statusCode reason
      a.String).AppendHeader (.ContentType "application/sdp"),
      ?_, ?_, ?_, ?_, ?_, ?_, ?_, ?_⟩
    · simp only [Session.Provisional, htx, ha, hlen, if_true]
    · simp only [Session.Provisional, htx, ha, hlen, if_true]
    · simp only [Response.AppendHeader]
      rw [NewResponseFromRequest_eq]
    · simp only [Response.AppendHeader]
      rw [NewResponseFromRequest_eq]
    · intro b hb
      cases hb
      refine ⟨?_, ?_, ?_⟩
      · simp only [Response.AppendHeader]
        rw [NewResponseFromRequest_eq]
      · simp only [Response.AppendHeader, Response.GetHeaders]
        rw [hct]
        exact List.cons_ne_nil _ _
      · simp only [Response.AppendHeader, Response.GetHeaders]
        exact hct
    · intro h
      cases h
    · simp only [Session.Provisional, htx, ha]
    · simp only [Session.Provisional, htx, ha]

theorem Provisional_sends_response_witness :
    (sampleSession InviteReceived (some sampleSdp)).transaction = .server "tx1"
      ∧ ∃ r, ((sampleSession InviteReceived (some sampleSdp)).Provisional 183
              "Session Progress").responded = [r]
        ∧ ((sampleSession InviteReceived (some sampleSdp)).Provisional 183
              "Session Progress").session.response = some r
        ∧ r.statusCode = 183
        ∧ r.reason = "Session Progress"
        ∧ (∀ a, (sampleSession InviteReceived (some sampleSdp)).answer = some a →
            r.body = a.String ∧ r.GetHeaders "Content-Type" ≠ []
              ∧ r.GetHeaders "Content-Type" = [.ContentType "application/sdp"])
        ∧ ((sampleSession InviteReceived (some sampleSdp)).answer = none → r.body = "")
        ∧ ((sampleSession InviteReceived (some sampleSdp)).Provisional 183
              "Session Progress").exit = .returned ()
        ∧ ((sampleSession InviteReceived (some sampleSdp)).Provisional 183
              "Session Progress").session.status
            = (sampleSession InviteReceived (some sampleSdp)).status :=
  ⟨rfl, Provisional_sends_response (sampleSession InviteReceived (some sampleSdp)) "tx1"
    183 "Session Progress" rfl⟩

/-- C11: when the transaction bound to the session is not a server transaction (it is a
client transaction or nil), each of `Accept`, `Reject` and `Provisional` panics instead
of returning, calls `Respond` not at all and leaves every field of the session as it
was; for `Accept` this is so whether or not an answer is present. -/
theorem operations_panic_without_server_transaction (s : Session) (statusCode : Nat)
    (reason : String) (hntx : ∀ key, s.transaction ≠ .server key) :
    ((s.Accept statusCode).exit = .panicked
        ∧ (s.Accept statusCode).responded = []
        ∧ (s.Accept statusCode).session = s)
      ∧ ((s.Reject statusCode reason).exit = .panicked
        ∧ (s.Reject statusCode reason).responded = []
        ∧ (s.Reject statusCode reason).session = s)
      ∧ ((s.Provisional statusCode reason).exit = .panicked
        ∧ (s.Provisional statusCode reason).responded = []
        ∧ (s.Provisional statusCode reason).session = s) := by
  unfold Session.Accept Session.Reject Session.Provisional
  cases htx : s.transaction with
  | nil => exact ⟨⟨rfl, rfl, rfl⟩, ⟨rfl, rfl, rfl⟩, ⟨rfl, rfl, rfl⟩⟩
  | client key => exact ⟨⟨rfl, rfl, rfl⟩, ⟨rfl, rfl, rfl⟩, ⟨rfl, rfl, rfl⟩⟩
  | server key => exact absurd htx (hntx key)

theorem operations_panic_without_server_transaction_witness :
    (∀ key, (sampleOutgoing InviteSent).transaction ≠ .server key)
      ∧ (((sampleOutgoing InviteSent).Accept 200).exit = .panicked
          ∧ ((sampleOutgoing InviteSent).Accept 200).responded = []
          ∧ ((sampleOutgoing InviteSent).Accept 200).session = sampleOutgoing InviteSent)
      ∧ (((sampleOutgoing InviteSent).Reject 200 "Busy Here").exit = .panicked
          ∧ ((sampleOutgoing InviteSent).Reject 200 "Busy Here").responded = []
          ∧ ((sampleOutgoing InviteSent).Reject 200 "Busy Here").session
              = sampleOutgoing InviteSent)
      ∧ (((sampleOutgoing InviteSent).Provisional 200 "Busy Here").exit = .panicked
          ∧ ((sampleOutgoing InviteSent).Provisional 200 "Busy Here").responded = []
          ∧ ((sampleOutgoing InviteSent).Provisional 200 "Busy Here").session
              = sampleOutgoing InviteSent) :=
  ⟨fun _ h => Transaction.noConfusion h,
    operations_panic_without_server_transaction (sampleOutgoing InviteSent) 200
      "Busy Here" (fun _ h => Transaction.noConfusion h)⟩

/-- C12: for every status value, named or not, `isInProgress` is true exactly when the
status is one of `Null`, `InviteSent`, `Provisional`, `InviteReceived`,
`WaitingForAnswer`. -/
theorem isInProgress_iff (s : Session) :
    s.isInProgress = true
      ↔ s.status = Null ∨ s.status = InviteSent ∨ s.status = Provisional
          ∨ s.status = InviteReceived ∨ s.status = WaitingForAnswer := by
  unfold Session.isInProgress
  split_ifs with h1 h2 h3 h4 h5 <;> simp_all

/-- C13: for every status value, `isEstablished` is true exactly when the status is one
of `Answered`, `WaitingForACK`, `Confirmed`. -/
theorem isEstablished_iff (s : Session) :
    s.isEstablished = true
      ↔ s.status = Answered ∨ s.status = WaitingForACK ∨ s.status = Confirmed := by
  unfold Session.isEstablished
  split_ifs with h1 h2 h3 <;> simp_all

/-- C14: for every status value, `isEnded` is true exactly when the status is `Canceled`
or `Terminated`; for `Failure` it is false. -/
theorem isEnded_iff (s : Session) :
    (s.isEnded = true ↔ s.status = Canceled ∨ s.status = Terminated)
      ∧ (s.SetState Failure).isEnded = false := by
  refine ⟨?_, rfl⟩
  unfold Session.isEnded
  split_ifs with h1 h2 <;> simp_all

/-- C15: after `ProvideAnswer(a)`, `GetEarlyMedia` returns `a`, whatever the status of the
session and whatever was stored before; `ProvideOffer(o)` leaves what `GetEarlyMedia`
returns as it was; neither of the two changes the status. -/
theorem answer_storage_round_trip (s : Session) (a o : Option SdpSession) :
    (s.ProvideAnswer a).GetEarlyMedia = a
      ∧ (s.ProvideOffer o).GetEarlyMedia = s.GetEarlyMedia
      ∧ ((s.ProvideOffer o).ProvideAnswer a).GetEarlyMedia = a
      ∧ ((s.ProvideAnswer a).ProvideOffer o).GetEarlyMedia = a
      ∧ (s.ProvideAnswer a).Status = s.Status
      ∧ (s.ProvideOffer o).Status = s.Status :=
  ⟨rfl, rfl, rfl, rfl, rfl, rfl⟩

/-- `Accept` never writes the direction, whichever way it ends. -/
theorem Accept_direction (s : Session) (statusCode : Nat) :
    (s.Accept statusCode).session.direction = s.direction := by
  unfold Session.Accept
  cases s.transaction <;> cases s.answer <;> rfl

/-- `Reject` leaves the session as it was, whichever way it ends. -/
theorem Reject_session (s : Session) (statusCode : Nat) (reason : String) :
    (s.Reject statusCode reason).session = s := by
  unfold Session.Reject
  cases s.transaction <;> rfl

/-- `Provisional` never writes the direction, whichever way it ends. -/
theorem Provisional_direction (s : Session) (statusCode : Nat) (reason : String) :
    (s.Provisional statusCode reason).session.direction = s.direction := by
  unfold Session.Provisional
  cases s.transaction <;> rfl

/-- `End` leaves the session as it was, whatever the status. -/
theorem End_session (s : Session) (statusCode : Nat) (reason : String) :
    (s.End statusCode reason).session = s := by
  unfold Session.End
  split <;> rfl

/-- C16: `Direction()` of the session that `NewInviteSession(…, dir)` returns is `dir`,
and no operation of the session changes what `Direction()` returns: not `StoreRequest`,
`StoreResponse`, `StoreTransaction`, `SetState`, `ProvideOffer`, `ProvideAnswer`, `Info`,
`Redirect`, `Reject`, `End`, `Accept` or `Provisional`, however the call ends. -/
theorem Direction_is_fixed (contact : Address) (req : Request) (cid : String)
    (tx : Transaction) (dir : Direction) (s : Session) (request : Request)
    (response : Option Response) (tx2 : Transaction) (status : Status)
    (sdp : Option SdpSession) (content : String) (addr : Address) (statusCode : Nat)
    (reason : String) :
    (NewInviteSession contact req cid tx dir).Direction = dir
      ∧ (s.StoreRequest request).Direction = s.Direction
      ∧ (s.StoreResponse response).Direction = s.Direction
      ∧ (s.StoreTransaction tx2).Direction = s.Direction
      ∧ (s.SetState status).Direction = s.Direction
      ∧ (s.ProvideOffer sdp).Direction = s.Direction
      ∧ (s.ProvideAnswer sdp).Direction = s.Direction
      ∧ (s.Info content).session.Direction = s.Direction
      ∧ (s.Redirect addr statusCode).session.Direction = s.Direction
      ∧ (s.Reject statusCode reason).session.Direction = s.Direction
      ∧ (s.End statusCode reason).session.Direction = s.Direction
      ∧ (s.Accept statusCode).session.Direction = s.Direction
      ∧ (s.Provisional statusCode reason).session.Direction = s.Direction := by
  refine ⟨rfl, rfl, rfl, rfl, rfl, rfl, rfl, rfl, rfl, ?_, ?_, ?_, ?_⟩
  · rw [Reject_session]
  · rw [End_session]
  · exact Accept_direction s statusCode
  · exact Provisional_direction s statusCode reason

/-- C18, as stated, fails: `isInProgress` holds for the session
`sampleSession WaitingForAnswer none`, and `End` on it takes the rejection branch (it
logs "Rejecting session"), not the cancel branch. -/
theorem End_on_WaitingForAnswer_rejects :
    (sampleSession WaitingForAnswer none).isInProgress = true
      ∧ ((sampleSession WaitingForAnswer none).End 486 "Busy Here").logged
          = [⟨"info", "Rejecting session"⟩]
      ∧ ((sampleSession WaitingForAnswer none).End 486 "Busy Here").logged
          ≠ [⟨"info", "Canceling session."⟩] := by
  decide

/-- C18, amended: `End` takes the cancel branch (it logs "Canceling session.") for the
statuses of the calling side, `Null`, `InviteSent`, `Provisional` and `EarlyMedia`; for
`WaitingForAnswer`, a status of the called side, it takes the rejection branch (it logs
"Rejecting session").  In each of these cases it returns no error. -/
theorem End_branch_by_side (s : Session) (statusCode : Nat) (reason : String)
    (h : s.status = Null ∨ s.status = InviteSent ∨ s.status = Provisional
          ∨ s.status = EarlyMedia ∨ s.status = WaitingForAnswer) :
    (s.End statusCode reason).logged
        = (if s.status = WaitingForAnswer then [⟨"info", "Rejecting session"⟩]
           else [⟨"info", "Canceling session."⟩])
      ∧ (s.End statusCode reason).exit = .returned none := by
  unfold Session.End
  rcases h with h | h | h | h | h <;> rw [h] <;> exact ⟨rfl, rfl⟩

theorem End_branch_by_side_witness :
    ((sampleOutgoing Provisional).status = Null
        ∨ (sampleOutgoing Provisional).status = InviteSent
        ∨ (sampleOutgoing Provisional).status = Provisional
        ∨ (sampleOutgoing Provisional).status = EarlyMedia
        ∨ (sampleOutgoing Provisional).status = WaitingForAnswer)
      ∧ ((sampleOutgoing Provisional).End 487 "Request Terminated").logged
          = (if (sampleOutgoing Provisional).status = WaitingForAnswer
             then [⟨"info", "Rejecting session"⟩]
             else [⟨"info", "Canceling session."⟩])
      ∧ ((sampleOutgoing Provisional).End 487 "Request Terminated").exit
          = .returned none :=
  ⟨Or.inr (Or.inr (Or.inl rfl)),
    End_branch_by_side (sampleOutgoing Provisional) 487 "Request Terminated"
      (Or.inr (Or.inr (Or.inl rfl)))⟩

/-- C19: `End` changes nothing: for every session, status code and reason the session
after the call equals the session before it (status, request, response, transaction,
offer, answer, direction, contact and id), `Respond` is not called, and the call
returns; it returns an error exactly when the status is `Terminated` and nil otherwise,
so nil for `Canceled`, `Failure`, `InviteReceived` and for a status that is none of the
named ones. -/
theorem End_changes_nothing (s : Session) (statusCode : Nat) (reason : String) :
    (s.End statusCode reason).session = s
      ∧ (s.End statusCode reason).responded = []
      ∧ (s.End statusCode reason).exit
          = .returned (if s.status = Terminated then some ("Invalid status: " ++ s.status)
                       else none)
      ∧ ((∃ e, (s.End statusCode reason).exit = .returned (some e))
          ↔ s.status = Terminated)
      ∧ ((s.End statusCode reason).exit = .returned none ↔ s.status ≠ Terminated)
      ∧ (∀ st ∈ [Canceled, Failure, InviteReceived, "", "Ringing"],
          st ∉ [Terminated]
            ∧ ((s.SetState st).End statusCode reason).exit = .returned none) := by
  have hexit : (s.End statusCode reason).exit
      = .returned (if s.status = Terminated then some ("Invalid status: " ++ s.status)
                   else none) := by
    unfold Session.End
    split <;> rfl
  refine ⟨End_session s statusCode reason, ?_, hexit, ?_, ?_, ?_⟩
  · unfold Session.End
    split <;> rfl
  · rw [hexit]
    by_cases h : s.status = Terminated
    · simp [h]
    · simp [h]
  · rw [hexit]
    by_cases h : s.status = Terminated
    · simp [h]
    · simp [h]
  · intro st hst
    simp only [List.mem_cons, List.mem_singleton, List.not_mem_nil, or_false] at hst
    rcases hst with h | h | h | h | h <;> subst h <;> exact ⟨by decide, rfl⟩

/-- C20: `Accept` does not look at its status code.  On a session with a server
transaction and an answer, `Accept(c1)` and `Accept(c2)` do the same for any two codes:
they send one and the same response, whose status code is 200 and whose reason is "OK",
and store it as the response of the session; the last header of that response is the
Contact header built from the contact of the session. -/
theorem Accept_ignores_status_code (s : Session) (key : String) (a : SdpSession)
    (c1 c2 : Nat) (htx : s.transaction = .server key) (ha : s.answer = some a) :
    s.Accept c1 = s.Accept c2
      ∧ ∃ r, (s.Accept c1).responded = [r]
        ∧ (s.Accept c2).responded = [r]
        ∧ (s.Accept c1).session.response = some r
        ∧ (s.Accept c2).session.response = some r
        ∧ r.statusCode = 200
        ∧ r.reason = "OK"
        ∧ r.headers.getLast? = some s.contact.AsContactHeader := by
  refine ⟨rfl, ?_⟩
  simp only [Session.Accept, htx, ha]
  refine ⟨_, rfl, rfl, rfl, rfl, ?_, ?_, ?_⟩
  · by_cases hreq : (s.request.GetHeaders "Content-Type").length = 0
    · simp only [hreq, if_true, Response.AppendHeader]
      rw [NewResponseFromRequest_eq]
    · simp only [hreq, if_false, Response.AppendHeader, CopyHeaders_eq]
      rw [NewResponseFromRequest_eq]
  · by_cases hreq : (s.request.GetHeaders "Content-Type").length = 0
    · simp only [hreq, if_true, Response.AppendHeader]
      rw [NewResponseFromRequest_eq]
    · simp only [hreq, if_false, Response.AppendHeader, CopyHeaders_eq]
      rw [NewResponseFromRequest_eq]
  · simp [Response.AppendHeader]

theorem Accept_ignores_status_code_witness :
    mixedSession.transaction = .server "tx1"
      ∧ mixedSession.answer = some sampleSdp
      ∧ mixedSession.Accept 200 = mixedSession.Accept 486
      ∧ ∃ r, (mixedSession.Accept 200).responded = [r]
        ∧ (mixedSession.Accept 486).responded = [r]
        ∧ (mixedSession.Accept 200).session.response = some r
        ∧ (mixedSession.Accept 486).session.response = some r
        ∧ r.statusCode = 200
        ∧ r.reason = "OK"
        ∧ r.headers.getLast? = some mixedSession.contact.AsContactHeader :=
  ⟨rfl, rfl, Accept_ignores_status_code mixedSession "tx1" sampleSdp 200 486 rfl rfl⟩

end Invite
